import Mathlib

/-!
# Verification of the TaxAIBuddy core services

Shallow embedding of the tax computation engine
(`server/services/taxCalculator.ts`), the Form 16 field extraction engine
(`server/services/pdfExtractor.ts`) and the OCR concurrency limiter of the
TaxAIBuddy repository, together with proofs about the properties stated in
the specification.

JavaScript numbers are modelled as exact rationals (`ℚ`); all the monetary
arithmetic of the source stays well inside the range where IEEE doubles
behave like exact arithmetic on the values of interest, and every
counterexample below survives the idealisation.
-/

/-- JavaScript `Math.round`: round to nearest, halves toward `+∞`.  -/
def jsRound (q : ℚ) : ℤ := ⌊q + 1/2⌋

/-- `Math.round` with the result viewed again as a JS number. -/
def jsRoundQ (q : ℚ) : ℚ := (jsRound q : ℚ)

/-- `TaxSlabRate` (taxCalculator.ts lines 1-5): `max = none` models `max: null`
(an unbounded bracket). -/
structure TaxSlabRate where
  min : ℚ
  max : Option ℚ
  rate : ℚ

/-- Old regime tax slabs for AY 2024-25 (taxCalculator.ts lines 27-32). -/
def oldRegimeSlabs : List TaxSlabRate :=
  [⟨0, some 250000, 0⟩,
   ⟨250000, some 500000, 5⟩,
   ⟨500000, some 1000000, 20⟩,
   ⟨1000000, none, 30⟩]

/-- New regime tax slabs for AY 2024-25 (taxCalculator.ts lines 35-42). -/
def newRegimeSlabs : List TaxSlabRate :=
  [⟨0, some 300000, 0⟩,
   ⟨300000, some 600000, 5⟩,
   ⟨600000, some 900000, 10⟩,
   ⟨900000, some 1200000, 15⟩,
   ⟨1200000, some 1500000, 20⟩,
   ⟨1500000, none, 30⟩]

/-- The single bracket substituted for non-residents
(taxCalculator.ts lines 61-65 and 96-100). -/
def nonResidentSlabs : List TaxSlabRate := [⟨0, none, 30⟩]

/-- Standard deduction for the new regime (taxCalculator.ts line 45). -/
def NEW_REGIME_STANDARD_DEDUCTION : ℚ := 50000

/-- Health and education cess rate, percent (taxCalculator.ts line 48). -/
def CESS_RATE : ℚ := 4

/-- The `for (const slab of slabs)` loop of `calculateTaxFromSlabs`
(taxCalculator.ts lines 142-156), with the running state `(remaining, tax)`
made explicit.  A `max = none` bracket has `slabWidth = Infinity`, so
`Math.min(remainingIncome, slabWidth) = remainingIncome` there. -/
def slabLoop (income : ℚ) : List TaxSlabRate → ℚ → ℚ → ℚ
  | [], _remaining, tax => tax
  | slab :: rest, remaining, tax =>
    if remaining ≤ 0 then tax
    else if income ≤ slab.min then slabLoop income rest remaining tax
    else
      match slab.max with
      | none =>
          slabLoop income rest (remaining - remaining)
            (tax + remaining * slab.rate / 100)
      | some mx =>
          slabLoop income rest (remaining - min remaining (mx - slab.min))
            (tax + min remaining (mx - slab.min) * slab.rate / 100)

/-- `calculateTaxFromSlabs` (taxCalculator.ts lines 138-159): run the slab
loop starting from `remainingIncome = income`, `tax = 0`, and round the
result with `Math.round`. -/
def calculateTaxFromSlabs (income : ℚ) (slabs : List TaxSlabRate) : ℚ :=
  jsRoundQ (slabLoop income slabs income 0)

/-- The bracket membership test of `getMarginalRate`
(taxCalculator.ts line 163): `income >= slab.min && (slab.max === null ||
income < slab.max)`. -/
def slabContains (slab : TaxSlabRate) (income : ℚ) : Bool :=
  decide (slab.min ≤ income) &&
    (match slab.max with
     | none => true
     | some mx => decide (income < mx))

/-- `getMarginalRate` (taxCalculator.ts lines 161-168). -/
def getMarginalRate (income : ℚ) : List TaxSlabRate → ℚ
  | [] => 0
  | slab :: rest =>
      if slabContains slab income then slab.rate else getMarginalRate income rest

/-- `TaxCalculationResult` (taxCalculator.ts lines 7-16). -/
structure TaxCalculationResult where
  grossIncome : ℚ
  totalDeductions : ℚ
  taxableIncome : ℚ
  taxLiability : ℚ
  cess : ℚ
  totalTax : ℚ
  effectiveRate : ℚ
  marginalRate : ℚ
deriving DecidableEq

/-- The two regime labels `'old' | 'new'` (taxCalculator.ts line 22). -/
inductive Regime where
  | old
  | new
deriving DecidableEq

/-- `RegimeComparison` (taxCalculator.ts lines 18-23). -/
structure RegimeComparison where
  oldRegime : TaxCalculationResult
  newRegime : TaxCalculationResult
  savings : ℚ
  recommendedRegime : Regime
deriving DecidableEq

/-- `Object.values(deductions).reduce((sum, amount) => sum + amount, 0)`:
the deduction mapping is modelled as an association list. -/
def sumDeductions (deductions : List (String × ℚ)) : ℚ :=
  (deductions.map Prod.snd).sum

/-- `calculateOldRegimeTax` (taxCalculator.ts lines 50-81). -/
def calculateOldRegimeTax (grossIncome : ℚ) (deductions : List (String × ℚ))
    (isNonResident : Bool) : TaxCalculationResult :=
  let totalDeductions := sumDeductions deductions
  let taxableIncome := max 0 (grossIncome - totalDeductions)
  let slabs := if isNonResident then nonResidentSlabs else oldRegimeSlabs
  let taxLiability := calculateTaxFromSlabs taxableIncome slabs
  let cess := taxLiability * CESS_RATE / 100
  let totalTax := taxLiability + cess
  { grossIncome := grossIncome
    totalDeductions := totalDeductions
    taxableIncome := taxableIncome
    taxLiability := taxLiability
    cess := cess
    totalTax := totalTax
    effectiveRate := if 0 < grossIncome then totalTax / grossIncome * 100 else 0
    marginalRate := getMarginalRate taxableIncome slabs }

/-- `calculateNewRegimeTax` (taxCalculator.ts lines 83-116). -/
def calculateNewRegimeTax (grossIncome : ℚ) (additionalDeductions : ℚ)
    (isNonResident : Bool) : TaxCalculationResult :=
  let standardDeduction := if isNonResident then 0 else NEW_REGIME_STANDARD_DEDUCTION
  let totalDeductions := standardDeduction + additionalDeductions
  let taxableIncome := max 0 (grossIncome - totalDeductions)
  let slabs := if isNonResident then nonResidentSlabs else newRegimeSlabs
  let taxLiability := calculateTaxFromSlabs taxableIncome slabs
  let cess := taxLiability * CESS_RATE / 100
  let totalTax := taxLiability + cess
  { grossIncome := grossIncome
    totalDeductions := totalDeductions
    taxableIncome := taxableIncome
    taxLiability := taxLiability
    cess := cess
    totalTax := totalTax
    effectiveRate := if 0 < grossIncome then totalTax / grossIncome * 100 else 0
    marginalRate := getMarginalRate taxableIncome slabs }

/-- `compareRegimes` (taxCalculator.ts lines 118-136). -/
def compareRegimes (grossIncome : ℚ) (oldRegimeDeductions : List (String × ℚ))
    (newRegimeAdditionalDeductions : ℚ) (isNonResident : Bool) : RegimeComparison :=
  let oldRegime := calculateOldRegimeTax grossIncome oldRegimeDeductions isNonResident
  let newRegime := calculateNewRegimeTax grossIncome newRegimeAdditionalDeductions isNonResident
  let savings := oldRegime.totalTax - newRegime.totalTax
  { oldRegime := oldRegime
    newRegime := newRegime
    savings := savings
    recommendedRegime := if 0 < savings then .new else .old }

/-- `calculateHRAExemption` (taxCalculator.ts lines 421-435);
`0.1`, `0.5`, `0.4` are the exact rationals the doubles denote on the
decimal literals. -/
def calculateHRAExemption (basicSalary hra rentPaid : ℚ)
    (isMetroCity : Bool) : ℚ :=
  if rentPaid ≤ 0 then 0
  else
    let hraReceived := hra
    let rentExcess := rentPaid - basicSalary * (1/10)
    let hraPercentage : ℚ := if isMetroCity then 1/2 else 2/5
    let basicHRALimit := basicSalary * hraPercentage
    min hraReceived (min rentExcess basicHRALimit)

/-! ## Closed forms for the slab loop on the three concrete slab tables -/

theorem slabLoop_cons_some (income mn mx rate : ℚ) (rest : List TaxSlabRate) (r t : ℚ) :
    slabLoop income (⟨mn, some mx, rate⟩ :: rest) r t =
      if r ≤ 0 then t
      else if income ≤ mn then slabLoop income rest r t
      else slabLoop income rest (r - min r (mx - mn))
        (t + min r (mx - mn) * rate / 100) := rfl

theorem slabLoop_cons_none (income mn rate : ℚ) (rest : List TaxSlabRate) (r t : ℚ) :
    slabLoop income (⟨mn, none, rate⟩ :: rest) r t =
      if r ≤ 0 then t
      else if income ≤ mn then slabLoop income rest r t
      else slabLoop income rest (r - r) (t + r * rate / 100) := rfl

/-- `min (max y 0) w`: the part of an income that falls inside a bracket of
width `w` starting `y` below the income. -/
def clampQ (y w : ℚ) : ℚ := min (max y 0) w

/-- Positive part. -/
def posPartQ (y : ℚ) : ℚ := max y 0

theorem clampQ_zero {y : ℚ} (w : ℚ) (hy : y ≤ 0) (hw : 0 ≤ w) : clampQ y w = 0 := by
  simp [clampQ, max_eq_right hy, min_eq_left hw]

theorem clampQ_mid {y w : ℚ} (hy : 0 ≤ y) (hw : y ≤ w) : clampQ y w = y := by
  simp [clampQ, max_eq_left hy, min_eq_left hw]

theorem clampQ_full {y w : ℚ} (hy : w ≤ y) (hw : 0 ≤ w) : clampQ y w = w := by
  simp [clampQ, max_eq_left (le_trans hw hy), min_eq_right hy]

theorem clampQ_mono (w : ℚ) {a b : ℚ} (h : a ≤ b) : clampQ a w ≤ clampQ b w :=
  min_le_min (max_le_max h le_rfl) le_rfl

theorem posPartQ_mono {a b : ℚ} (h : a ≤ b) : posPartQ a ≤ posPartQ b :=
  max_le_max h le_rfl

/-- Progressive tax under the old-regime resident slab table, as a closed
formula. -/
def oldSlabFormula (x : ℚ) : ℚ :=
  (clampQ (x - 250000) 250000 * 5 + clampQ (x - 500000) 500000 * 20 +
    posPartQ (x - 1000000) * 30) / 100

/-- Progressive tax under the new-regime resident slab table, as a closed
formula. -/
def newSlabFormula (x : ℚ) : ℚ :=
  (clampQ (x - 300000) 300000 * 5 + clampQ (x - 600000) 300000 * 10 +
    clampQ (x - 900000) 300000 * 15 + clampQ (x - 1200000) 300000 * 20 +
    posPartQ (x - 1500000) * 30) / 100

/-- Tax under the single non-resident bracket, as a closed formula. -/
def nonResidentFormula (x : ℚ) : ℚ := posPartQ x * 30 / 100

theorem slabLoop_old_eq (x : ℚ) :
    slabLoop x oldRegimeSlabs x 0 = oldSlabFormula x := by
  unfold oldRegimeSlabs
  rcases le_or_lt x 0 with h0 | h0
  · rw [slabLoop_cons_some, if_pos h0, oldSlabFormula,
      clampQ_zero _ (by linarith) (by norm_num),
      clampQ_zero _ (by linarith) (by norm_num), posPartQ, max_eq_right (by linarith)]
    ring
  · rcases le_or_lt x 250000 with h1 | h1
    · rw [slabLoop_cons_some, if_neg (by linarith), if_neg (by linarith),
        min_eq_left (by linarith), slabLoop_cons_some, if_pos (by linarith),
        oldSlabFormula, clampQ_zero _ (by linarith) (by norm_num),
        clampQ_zero _ (by linarith) (by norm_num), posPartQ, max_eq_right (by linarith)]
      ring
    · rcases le_or_lt x 500000 with h2 | h2
      · rw [slabLoop_cons_some, if_neg (by linarith), if_neg (by linarith),
          min_eq_right (by linarith), slabLoop_cons_some, if_neg (by linarith),
          if_neg (by linarith), min_eq_left (by linarith), slabLoop_cons_some,
          if_pos (by linarith), oldSlabFormula,
          clampQ_mid (by linarith) (by linarith),
          clampQ_zero _ (by linarith) (by norm_num), posPartQ, max_eq_right (by linarith)]
        ring
      · rcases le_or_lt x 1000000 with h3 | h3
        · rw [slabLoop_cons_some, if_neg (by linarith), if_neg (by linarith),
            min_eq_right (by linarith), slabLoop_cons_some, if_neg (by linarith),
            if_neg (by linarith), min_eq_right (by linarith), slabLoop_cons_some,
            if_neg (by linarith), if_neg (by linarith), min_eq_left (by linarith),
            slabLoop_cons_none, if_pos (by linarith), oldSlabFormula,
            clampQ_full (by linarith) (by norm_num),
            clampQ_mid (by linarith) (by linarith), posPartQ, max_eq_right (by linarith)]
          ring
        · rw [slabLoop_cons_some, if_neg (by linarith), if_neg (by linarith),
            min_eq_right (by linarith), slabLoop_cons_some, if_neg (by linarith),
            if_neg (by linarith), min_eq_right (by linarith), slabLoop_cons_some,
            if_neg (by linarith), if_neg (by linarith), min_eq_right (by linarith),
            slabLoop_cons_none, if_neg (by linarith), if_neg (by linarith),
            oldSlabFormula, clampQ_full (by linarith) (by norm_num),
            clampQ_full (by linarith) (by norm_num), posPartQ, max_eq_left (by linarith)]
          simp [slabLoop]
          ring

theorem slabLoop_new_eq (x : ℚ) :
    slabLoop x newRegimeSlabs x 0 = newSlabFormula x := by
  unfold newRegimeSlabs
  rcases le_or_lt x 0 with h0 | h0
  · rw [slabLoop_cons_some, if_pos h0, newSlabFormula,
      clampQ_zero _ (by linarith) (by norm_num),
      clampQ_zero _ (by linarith) (by norm_num),
      clampQ_zero _ (by linarith) (by norm_num),
      clampQ_zero _ (by linarith) (by norm_num), posPartQ, max_eq_right (by linarith)]
    ring
  · rcases le_or_lt x 300000 with h1 | h1
    · rw [slabLoop_cons_some, if_neg (by linarith), if_neg (by linarith),
        min_eq_left (by linarith), slabLoop_cons_some, if_pos (by linarith),
        newSlabFormula, clampQ_zero _ (by linarith) (by norm_num),
        clampQ_zero _ (by linarith) (by norm_num),
        clampQ_zero _ (by linarith) (by norm_num),
        clampQ_zero _ (by linarith) (by norm_num), posPartQ, max_eq_right (by linarith)]
      ring
    · rcases le_or_lt x 600000 with h2 | h2
      · rw [slabLoop_cons_some, if_neg (by linarith), if_neg (by linarith),
          min_eq_right (by linarith), slabLoop_cons_some, if_neg (by linarith),
          if_neg (by linarith), min_eq_left (by linarith), slabLoop_cons_some,
          if_pos (by linarith), newSlabFormula,
          clampQ_mid (by linarith) (by linarith),
          clampQ_zero _ (by linarith) (by norm_num),
          clampQ_zero _ (by linarith) (by norm_num),
          clampQ_zero _ (by linarith) (by norm_num), posPartQ, max_eq_right (by linarith)]
        ring
      · rcases le_or_lt x 900000 with h3 | h3
        · rw [slabLoop_cons_some, if_neg (by linarith), if_neg (by linarith),
            min_eq_right (by linarith), slabLoop_cons_some, if_neg (by linarith),
            if_neg (by linarith), min_eq_right (by linarith), slabLoop_cons_some,
            if_neg (by linarith), if_neg (by linarith), min_eq_left (by linarith),
            slabLoop_cons_some, if_pos (by linarith), newSlabFormula,
            clampQ_full (by linarith) (by norm_num),
            clampQ_mid (by linarith) (by linarith),
            clampQ_zero _ (by linarith) (by norm_num),
            clampQ_zero _ (by linarith) (by norm_num), posPartQ, max_eq_right (by linarith)]
          ring
        · rcases le_or_lt x 1200000 with h4 | h4
          · rw [slabLoop_cons_some, if_neg (by linarith), if_neg (by linarith),
              min_eq_right (by linarith), slabLoop_cons_some, if_neg (by linarith),
              if_neg (by linarith), min_eq_right (by linarith), slabLoop_cons_some,
              if_neg (by linarith), if_neg (by linarith), min_eq_right (by linarith),
              slabLoop_cons_some, if_neg (by linarith), if_neg (by linarith),
              min_eq_left (by linarith), slabLoop_cons_some, if_pos (by linarith),
              newSlabFormula, clampQ_full (by linarith) (by norm_num),
              clampQ_full (by linarith) (by norm_num),
              clampQ_mid (by linarith) (by linarith),
              clampQ_zero _ (by linarith) (by norm_num), posPartQ,
              max_eq_right (by linarith)]
            ring
          · rcases le_or_lt x 1500000 with h5 | h5
            · rw [slabLoop_cons_some, if_neg (by linarith), if_neg (by linarith),
                min_eq_right (by linarith), slabLoop_cons_some, if_neg (by linarith),
                if_neg (by linarith), min_eq_right (by linarith), slabLoop_cons_some,
                if_neg (by linarith), if_neg (by linarith), min_eq_right (by linarith),
                slabLoop_cons_some, if_neg (by linarith), if_neg (by linarith),
                min_eq_right (by linarith), slabLoop_cons_some, if_neg (by linarith),
                if_neg (by linarith), min_eq_left (by linarith), slabLoop_cons_none,
                if_pos (by linarith), newSlabFormula,
                clampQ_full (by linarith) (by norm_num),
                clampQ_full (by linarith) (by norm_num),
                clampQ_full (by linarith) (by norm_num),
                clampQ_mid (by linarith) (by linarith), posPartQ,
                max_eq_right (by linarith)]
              ring
            · rw [slabLoop_cons_some, if_neg (by linarith), if_neg (by linarith),
                min_eq_right (by linarith), slabLoop_cons_some, if_neg (by linarith),
                if_neg (by linarith), min_eq_right (by linarith), slabLoop_cons_some,
                if_neg (by linarith), if_neg (by linarith), min_eq_right (by linarith),
                slabLoop_cons_some, if_neg (by linarith), if_neg (by linarith),
                min_eq_right (by linarith), slabLoop_cons_some, if_neg (by linarith),
                if_neg (by linarith), min_eq_right (by linarith), slabLoop_cons_none,
                if_neg (by linarith), if_neg (by linarith), newSlabFormula,
                clampQ_full (by linarith) (by norm_num),
                clampQ_full (by linarith) (by norm_num),
                clampQ_full (by linarith) (by norm_num),
                clampQ_full (by linarith) (by norm_num), posPartQ,
                max_eq_left (by linarith)]
              simp [slabLoop]
              ring

theorem slabLoop_nonResident_eq (x : ℚ) :
    slabLoop x nonResidentSlabs x 0 = nonResidentFormula x := by
  unfold nonResidentSlabs
  rcases le_or_lt x 0 with h0 | h0
  · rw [slabLoop_cons_none, if_pos h0, nonResidentFormula, posPartQ,
      max_eq_right (by linarith)]
    ring
  · rw [slabLoop_cons_none, if_neg (by linarith), if_neg (by linarith),
      nonResidentFormula, posPartQ, max_eq_left (by linarith)]
    simp [slabLoop]

theorem oldSlabFormula_mono {a b : ℚ} (h : a ≤ b) :
    oldSlabFormula a ≤ oldSlabFormula b := by
  have h1 := clampQ_mono 250000 (sub_le_sub_right h 250000)
  have h2 := clampQ_mono 500000 (sub_le_sub_right h 500000)
  have h3 := posPartQ_mono (sub_le_sub_right h 1000000)
  unfold oldSlabFormula
  linarith

theorem newSlabFormula_mono {a b : ℚ} (h : a ≤ b) :
    newSlabFormula a ≤ newSlabFormula b := by
  have h1 := clampQ_mono 300000 (sub_le_sub_right h 300000)
  have h2 := clampQ_mono 300000 (sub_le_sub_right h 600000)
  have h3 := clampQ_mono 300000 (sub_le_sub_right h 900000)
  have h4 := clampQ_mono 300000 (sub_le_sub_right h 1200000)
  have h5 := posPartQ_mono (sub_le_sub_right h 1500000)
  unfold newSlabFormula
  linarith

theorem nonResidentFormula_mono {a b : ℚ} (h : a ≤ b) :
    nonResidentFormula a ≤ nonResidentFormula b := by
  have h1 := posPartQ_mono h
  unfold nonResidentFormula
  linarith

theorem jsRoundQ_mono {a b : ℚ} (h : a ≤ b) : jsRoundQ a ≤ jsRoundQ b := by
  unfold jsRoundQ jsRound
  exact_mod_cast Int.floor_mono (by linarith)

/-! ## Support lemmas about the calculation results -/

theorem totalTax_old_def (g : ℚ) (d : List (String × ℚ)) (nr : Bool) :
    (calculateOldRegimeTax g d nr).totalTax =
      calculateTaxFromSlabs (max 0 (g - sumDeductions d))
          (if nr then nonResidentSlabs else oldRegimeSlabs) +
        calculateTaxFromSlabs (max 0 (g - sumDeductions d))
          (if nr then nonResidentSlabs else oldRegimeSlabs) * CESS_RATE / 100 := rfl

theorem totalTax_new_def (g : ℚ) (extra : ℚ) (nr : Bool) :
    (calculateNewRegimeTax g extra nr).totalTax =
      calculateTaxFromSlabs
          (max 0 (g - ((if nr then 0 else NEW_REGIME_STANDARD_DEDUCTION) + extra)))
          (if nr then nonResidentSlabs else newRegimeSlabs) +
        calculateTaxFromSlabs
          (max 0 (g - ((if nr then 0 else NEW_REGIME_STANDARD_DEDUCTION) + extra)))
          (if nr then nonResidentSlabs else newRegimeSlabs) * CESS_RATE / 100 := rfl

theorem marginalRate_old_def (g : ℚ) (d : List (String × ℚ)) (nr : Bool) :
    (calculateOldRegimeTax g d nr).marginalRate =
      getMarginalRate (calculateOldRegimeTax g d nr).taxableIncome
        (if nr then nonResidentSlabs else oldRegimeSlabs) := rfl

theorem marginalRate_new_def (g : ℚ) (extra : ℚ) (nr : Bool) :
    (calculateNewRegimeTax g extra nr).marginalRate =
      getMarginalRate (calculateNewRegimeTax g extra nr).taxableIncome
        (if nr then nonResidentSlabs else newRegimeSlabs) := rfl

theorem taxableIncome_old_nonneg (g : ℚ) (d : List (String × ℚ)) (nr : Bool) :
    0 ≤ (calculateOldRegimeTax g d nr).taxableIncome := le_max_left _ _

theorem taxableIncome_new_nonneg (g : ℚ) (extra : ℚ) (nr : Bool) :
    0 ≤ (calculateNewRegimeTax g extra nr).taxableIncome := le_max_left _ _

/-- The specification-side reading of "the bracket whose range contains the
income": the income is at least the lower bound and below the upper bound
when one exists. -/
def bracketContains (s : TaxSlabRate) (x : ℚ) : Prop :=
  s.min ≤ x ∧ ∀ mx, s.max = some mx → x < mx

theorem bracketContains_mk_some {mn m r x : ℚ} (h1 : mn ≤ x) (h2 : x < m) :
    bracketContains ⟨mn, some m, r⟩ x :=
  ⟨h1, fun _ hmx => Option.some.inj hmx ▸ h2⟩

theorem bracketContains_mk_none {mn r x : ℚ} (h1 : mn ≤ x) :
    bracketContains ⟨mn, none, r⟩ x :=
  ⟨h1, fun _ hmx => Option.noConfusion hmx⟩

theorem slabContains_iff (s : TaxSlabRate) (x : ℚ) :
    slabContains s x = true ↔ bracketContains s x := by
  rcases s with ⟨mn, mxo, r⟩
  cases mxo <;> simp [slabContains, bracketContains]

/-- `getMarginalRate` returns the rate of some bracket of the table that
contains the income, as soon as one exists. -/
theorem getMarginalRate_mem (x : ℚ) :
    ∀ slabs : List TaxSlabRate, (∃ s ∈ slabs, bracketContains s x) →
      ∃ s ∈ slabs, bracketContains s x ∧ getMarginalRate x slabs = s.rate := by
  intro slabs
  induction slabs with
  | nil => rintro ⟨s, hs, _⟩; simp at hs
  | cons a rest ih =>
    intro hex
    by_cases h : slabContains a x = true
    · exact ⟨a, by simp, (slabContains_iff a x).1 h, by simp [getMarginalRate, h]⟩
    · obtain ⟨s, hs, hc⟩ := hex
      rcases List.mem_cons.1 hs with rfl | hs'
      · exact absurd ((slabContains_iff s x).2 hc) h
      · obtain ⟨s', hs'', hc', hr⟩ := ih ⟨s, hs', hc⟩
        exact ⟨s', List.mem_cons_of_mem _ hs'', hc',
          by simp [getMarginalRate, h, hr]⟩

theorem oldRegimeSlabs_cover {x : ℚ} (hx : 0 ≤ x) :
    ∃ s ∈ oldRegimeSlabs, bracketContains s x := by
  rcases lt_or_le x 250000 with h | h
  · exact ⟨⟨0, some 250000, 0⟩, by simp [oldRegimeSlabs],
      bracketContains_mk_some hx h⟩
  · rcases lt_or_le x 500000 with h' | h'
    · exact ⟨⟨250000, some 500000, 5⟩, by simp [oldRegimeSlabs],
        bracketContains_mk_some h h'⟩
    · rcases lt_or_le x 1000000 with h'' | h''
      · exact ⟨⟨500000, some 1000000, 20⟩, by simp [oldRegimeSlabs],
          bracketContains_mk_some h' h''⟩
      · exact ⟨⟨1000000, none, 30⟩, by simp [oldRegimeSlabs],
          bracketContains_mk_none h''⟩

theorem newRegimeSlabs_cover {x : ℚ} (hx : 0 ≤ x) :
    ∃ s ∈ newRegimeSlabs, bracketContains s x := by
  rcases lt_or_le x 300000 with h1 | h1
  · exact ⟨⟨0, some 300000, 0⟩, by simp [newRegimeSlabs],
      bracketContains_mk_some hx h1⟩
  · rcases lt_or_le x 600000 with h2 | h2
    · exact ⟨⟨300000, some 600000, 5⟩, by simp [newRegimeSlabs],
        bracketContains_mk_some h1 h2⟩
    · rcases lt_or_le x 900000 with h3 | h3
      · exact ⟨⟨600000, some 900000, 10⟩, by simp [newRegimeSlabs],
          bracketContains_mk_some h2 h3⟩
      · rcases lt_or_le x 1200000 with h4 | h4
        · exact ⟨⟨900000, some 1200000, 15⟩, by simp [newRegimeSlabs],
            bracketContains_mk_some h3 h4⟩
        · rcases lt_or_le x 1500000 with h5 | h5
          · exact ⟨⟨1200000, some 1500000, 20⟩, by simp [newRegimeSlabs],
              bracketContains_mk_some h4 h5⟩
          · exact ⟨⟨1500000, none, 30⟩, by simp [newRegimeSlabs],
              bracketContains_mk_none h5⟩

theorem nonResidentSlabs_cover {x : ℚ} (hx : 0 ≤ x) :
    ∃ s ∈ nonResidentSlabs, bracketContains s x :=
  ⟨⟨0, none, 30⟩, by simp [nonResidentSlabs], bracketContains_mk_none hx⟩

/-! ## Claims C1 - C6 -/

/-- C1: for grossIncome 1,000,000 with resident status, the old regime with
deductions {80C: 150000} yields taxableIncome 850,000, taxLiability 82,500,
cess 3,300 and totalTax 85,800; the new regime with additionalDeductions 0
yields taxableIncome 950,000, taxLiability 52,500, cess 2,100 and totalTax
54,600; and `compareRegimes` returns savings 31,200 and recommends the new
regime. -/
theorem c1_end_to_end_scenario :
    (calculateOldRegimeTax 1000000 [("80C", 150000)] false).taxableIncome = 850000 ∧
    (calculateOldRegimeTax 1000000 [("80C", 150000)] false).taxLiability = 82500 ∧
    (calculateOldRegimeTax 1000000 [("80C", 150000)] false).cess = 3300 ∧
    (calculateOldRegimeTax 1000000 [("80C", 150000)] false).totalTax = 85800 ∧
    (calculateNewRegimeTax 1000000 0 false).taxableIncome = 950000 ∧
    (calculateNewRegimeTax 1000000 0 false).taxLiability = 52500 ∧
    (calculateNewRegimeTax 1000000 0 false).cess = 2100 ∧
    (calculateNewRegimeTax 1000000 0 false).totalTax = 54600 ∧
    (compareRegimes 1000000 [("80C", 150000)] 0 false).savings = 31200 ∧
    (compareRegimes 1000000 [("80C", 150000)] 0 false).recommendedRegime = Regime.new := by
  norm_num [compareRegimes, calculateOldRegimeTax, calculateNewRegimeTax,
    sumDeductions, calculateTaxFromSlabs, oldRegimeSlabs, newRegimeSlabs,
    slabLoop, jsRoundQ, jsRound, CESS_RATE, NEW_REGIME_STANDARD_DEDUCTION]

/-- C2 counterexample: at grossIncome 250,020 (old regime, resident, no
deductions) the taxLiability is 1, the stored cess is 1 * 4/100 = 1/25,
which is not `Math.round(taxLiability * 0.04) = 0`: the code does not round
the cess. -/
theorem c2_counterexample :
    ¬ ((calculateOldRegimeTax 250020 [] false).cess =
        jsRoundQ ((calculateOldRegimeTax 250020 [] false).taxLiability * (4/100)) ∧
      (calculateOldRegimeTax 250020 [] false).totalTax =
        (calculateOldRegimeTax 250020 [] false).taxLiability +
          (calculateOldRegimeTax 250020 [] false).cess) := by
  intro hcontra
  have h := hcontra.1
  norm_num [calculateOldRegimeTax, sumDeductions, calculateTaxFromSlabs,
    oldRegimeSlabs, slabLoop, jsRoundQ, jsRound, CESS_RATE] at h

/-- C2 (amended): for every grossIncome and every deduction input, in both
regimes, the cess field equals taxLiability * 0.04 exactly (no rounding is
applied to the cess), and totalTax equals taxLiability + cess. -/
theorem c2_cess_is_exact_four_percent (g : ℚ) (d : List (String × ℚ))
    (extra : ℚ) (nr : Bool) :
    (calculateOldRegimeTax g d nr).cess =
      (calculateOldRegimeTax g d nr).taxLiability * (4/100) ∧
    (calculateOldRegimeTax g d nr).totalTax =
      (calculateOldRegimeTax g d nr).taxLiability + (calculateOldRegimeTax g d nr).cess ∧
    (calculateNewRegimeTax g extra nr).cess =
      (calculateNewRegimeTax g extra nr).taxLiability * (4/100) ∧
    (calculateNewRegimeTax g extra nr).totalTax =
      (calculateNewRegimeTax g extra nr).taxLiability + (calculateNewRegimeTax g extra nr).cess := by
  refine ⟨?_, rfl, ?_, rfl⟩
  · have hcess : (calculateOldRegimeTax g d nr).cess =
        (calculateOldRegimeTax g d nr).taxLiability * CESS_RATE / 100 := rfl
    rw [hcess, CESS_RATE]; ring
  · have hcess : (calculateNewRegimeTax g extra nr).cess =
        (calculateNewRegimeTax g extra nr).taxLiability * CESS_RATE / 100 := rfl
    rw [hcess, CESS_RATE]; ring

/-- C3: `compareRegimes` returns savings = old.totalTax − new.totalTax,
recommends the new regime exactly when savings > 0, and in particular a tie
(savings = 0) yields the old regime. -/
theorem c3_regime_comparison_sign (g : ℚ) (d : List (String × ℚ))
    (extra : ℚ) (nr : Bool) :
    (compareRegimes g d extra nr).savings =
      (calculateOldRegimeTax g d nr).totalTax - (calculateNewRegimeTax g extra nr).totalTax ∧
    ((compareRegimes g d extra nr).recommendedRegime = Regime.new ↔
      0 < (compareRegimes g d extra nr).savings) ∧
    ((compareRegimes g d extra nr).savings = 0 →
      (compareRegimes g d extra nr).recommendedRegime = Regime.old) := by
  have hrec : (compareRegimes g d extra nr).recommendedRegime =
      if 0 < (compareRegimes g d extra nr).savings then Regime.new else Regime.old := rfl
  refine ⟨rfl, ?_, ?_⟩
  · rw [hrec]
    split_ifs with h <;> simp [h]
  · intro h0
    rw [hrec, if_neg (by rw [h0]; exact lt_irrefl 0)]

/-- C3 witness: a concrete tie resolves to the old regime. -/
theorem c3_regime_comparison_sign_witness :
    (compareRegimes 0 [] 0 false).recommendedRegime = Regime.old :=
  (c3_regime_comparison_sign 0 [] 0 false).2.2 (by
    norm_num [compareRegimes, calculateOldRegimeTax, calculateNewRegimeTax,
      sumDeductions, calculateTaxFromSlabs, oldRegimeSlabs, newRegimeSlabs,
      slabLoop, jsRoundQ, jsRound, CESS_RATE, NEW_REGIME_STANDARD_DEDUCTION])

/-- C4 counterexample: for a non-resident with grossIncome 0, taxableIncome
is 0 yet marginalRate is 30 (the single non-resident bracket has rate 30),
refuting "marginalRate is 0 whenever taxableIncome is 0". -/
theorem c4_counterexample :
    (calculateOldRegimeTax 0 [] true).taxableIncome = 0 ∧
    (calculateOldRegimeTax 0 [] true).marginalRate ≠ 0 := by
  constructor
  · norm_num [calculateOldRegimeTax, sumDeductions]
  · norm_num [calculateOldRegimeTax, sumDeductions, getMarginalRate,
      slabContains, nonResidentSlabs]

/-- C4 (amended): in both regimes the marginalRate is the rate of a slab
bracket whose range contains taxableIncome (with the single non-resident
bracket {0, unbounded, 30%} when isNonResident); for residents the
marginalRate is 0 whenever taxableIncome is 0, while for non-residents it
is the 30% single-bracket rate even at zero taxable income. -/
theorem c4_marginal_rate_bracket (g : ℚ) (d : List (String × ℚ))
    (extra : ℚ) (nr : Bool) :
    (∃ s ∈ (if nr then nonResidentSlabs else oldRegimeSlabs),
      bracketContains s (calculateOldRegimeTax g d nr).taxableIncome ∧
      (calculateOldRegimeTax g d nr).marginalRate = s.rate) ∧
    (∃ s ∈ (if nr then nonResidentSlabs else newRegimeSlabs),
      bracketContains s (calculateNewRegimeTax g extra nr).taxableIncome ∧
      (calculateNewRegimeTax g extra nr).marginalRate = s.rate) ∧
    (nr = false → (calculateOldRegimeTax g d nr).taxableIncome = 0 →
      (calculateOldRegimeTax g d nr).marginalRate = 0) ∧
    (nr = false → (calculateNewRegimeTax g extra nr).taxableIncome = 0 →
      (calculateNewRegimeTax g extra nr).marginalRate = 0) := by
  refine ⟨?_, ?_, ?_, ?_⟩
  · rw [marginalRate_old_def]
    obtain ⟨s, hs, hc, hr⟩ := getMarginalRate_mem
      (calculateOldRegimeTax g d nr).taxableIncome
      (if nr then nonResidentSlabs else oldRegimeSlabs)
      (by cases nr
          · simpa using oldRegimeSlabs_cover (taxableIncome_old_nonneg g d false)
          · simpa using nonResidentSlabs_cover (taxableIncome_old_nonneg g d true))
    exact ⟨s, hs, hc, hr⟩
  · rw [marginalRate_new_def]
    obtain ⟨s, hs, hc, hr⟩ := getMarginalRate_mem
      (calculateNewRegimeTax g extra nr).taxableIncome
      (if nr then nonResidentSlabs else newRegimeSlabs)
      (by cases nr
          · simpa using newRegimeSlabs_cover (taxableIncome_new_nonneg g extra false)
          · simpa using nonResidentSlabs_cover (taxableIncome_new_nonneg g extra true))
    exact ⟨s, hs, hc, hr⟩
  · rintro rfl h0
    rw [marginalRate_old_def, h0]
    norm_num [getMarginalRate, slabContains, oldRegimeSlabs]
  · rintro rfl h0
    rw [marginalRate_new_def, h0]
    norm_num [getMarginalRate, slabContains, newRegimeSlabs]

/-- C4 witness: a resident with zero income has marginalRate 0. -/
theorem c4_marginal_rate_bracket_witness :
    (calculateOldRegimeTax 0 [] false).marginalRate = 0 :=
  (c4_marginal_rate_bracket 0 [] 0 false).2.2.1 rfl
    (by norm_num [calculateOldRegimeTax, sumDeductions])

/-- C5: for fixed deductions and residency flag, totalTax is non-decreasing
in grossIncome, in both regimes. -/
theorem c5_totalTax_monotone (d : List (String × ℚ)) (extra : ℚ) (nr : Bool)
    (g1 g2 : ℚ) (h : g1 ≤ g2) :
    (calculateOldRegimeTax g1 d nr).totalTax ≤ (calculateOldRegimeTax g2 d nr).totalTax ∧
    (calculateNewRegimeTax g1 extra nr).totalTax ≤ (calculateNewRegimeTax g2 extra nr).totalTax := by
  have hmax : ∀ D : ℚ, max 0 (g1 - D) ≤ max 0 (g2 - D) :=
    fun D => max_le_max le_rfl (by linarith)
  constructor
  · rw [totalTax_old_def, totalTax_old_def]
    have hL : calculateTaxFromSlabs (max 0 (g1 - sumDeductions d))
        (if nr then nonResidentSlabs else oldRegimeSlabs) ≤
        calculateTaxFromSlabs (max 0 (g2 - sumDeductions d))
        (if nr then nonResidentSlabs else oldRegimeSlabs) := by
      cases nr
      · simp only [Bool.false_eq_true, if_false]
        unfold calculateTaxFromSlabs
        rw [slabLoop_old_eq, slabLoop_old_eq]
        exact jsRoundQ_mono (oldSlabFormula_mono (hmax _))
      · simp only [if_true]
        unfold calculateTaxFromSlabs
        rw [slabLoop_nonResident_eq, slabLoop_nonResident_eq]
        exact jsRoundQ_mono (nonResidentFormula_mono (hmax _))
    rw [CESS_RATE]
    linarith
  · rw [totalTax_new_def, totalTax_new_def]
    have hL : calculateTaxFromSlabs
        (max 0 (g1 - ((if nr then 0 else NEW_REGIME_STANDARD_DEDUCTION) + extra)))
        (if nr then nonResidentSlabs else newRegimeSlabs) ≤
        calculateTaxFromSlabs
        (max 0 (g2 - ((if nr then 0 else NEW_REGIME_STANDARD_DEDUCTION) + extra)))
        (if nr then nonResidentSlabs else newRegimeSlabs) := by
      cases nr
      · simp only [Bool.false_eq_true, if_false]
        unfold calculateTaxFromSlabs
        rw [slabLoop_new_eq, slabLoop_new_eq]
        exact jsRoundQ_mono (newSlabFormula_mono (hmax _))
      · simp only [if_true]
        unfold calculateTaxFromSlabs
        rw [slabLoop_nonResident_eq, slabLoop_nonResident_eq]
        exact jsRoundQ_mono (nonResidentFormula_mono (hmax _))
    rw [CESS_RATE]
    linarith

/-- C5 witness: monotonicity applied at 100,000 ≤ 900,000. -/
theorem c5_totalTax_monotone_witness :
    (calculateOldRegimeTax 100000 [] false).totalTax ≤
      (calculateOldRegimeTax 900000 [] false).totalTax ∧
    (calculateNewRegimeTax 100000 0 false).totalTax ≤
      (calculateNewRegimeTax 900000 0 false).totalTax :=
  c5_totalTax_monotone [] 0 false 100000 900000 (by norm_num)

/-- C6 counterexample: with basicSalary 100,000, hra 5,000, rentPaid 0 in a
metro city the function returns 0 (the `rentPaid <= 0` guard), not the
min-of-three formula, whose value would be −10,000. -/
theorem c6_counterexample :
    calculateHRAExemption 100000 5000 0 true ≠
      min 5000 (min ((0:ℚ) - 100000 * (1/10)) (100000 * (1/2 : ℚ))) := by
  norm_num [calculateHRAExemption]

/-- C6 (amended): whenever rentPaid > 0, `calculateHRAExemption` returns
min(hra, rentPaid − 0.1·basicSalary, basicSalary·(0.5 metro / 0.4
non-metro)), with no clamping of negative intermediate values, so a
negative result is possible; when rentPaid ≤ 0 it returns 0 instead. -/
theorem c6_hra_exemption_formula :
    (∀ (basicSalary hra rentPaid : ℚ) (isMetroCity : Bool), 0 < rentPaid →
      calculateHRAExemption basicSalary hra rentPaid isMetroCity =
        min hra (min (rentPaid - basicSalary * (1/10))
          (basicSalary * (if isMetroCity then (1/2 : ℚ) else 2/5)))) ∧
    (∃ (b h r : ℚ) (m : Bool), 0 < r ∧ calculateHRAExemption b h r m < 0) := by
  constructor
  · intro b h r m hr
    unfold calculateHRAExemption
    rw [if_neg (not_le.mpr hr)]
  · exact ⟨100000, 5000, 1000, true, by norm_num, by norm_num [calculateHRAExemption]⟩

/-- C6 witness: the formula applied at a concrete positive rent. -/
theorem c6_hra_exemption_formula_witness :
    calculateHRAExemption 100000 20000 60000 true =
      min 20000 (min ((60000 : ℚ) - 100000 * (1/10)) (100000 * (1/2 : ℚ))) :=
  c6_hra_exemption_formula.1 100000 20000 60000 true (by norm_num)

/-! ## A small regular-expression engine for the extraction patterns

The field patterns of `pdfExtractor.ts` are JavaScript regular expressions
built from literals (case-insensitive), character classes, `\s*`/`\d+`
repetition and `(?:...)?` optional groups, always ending in the capturing
group `([0-9,]+\.?\d*)`.  The prefix before the group is modelled as a
regular expression matched with Brzozowski derivatives, and the final
group as a greedy amount lexer. -/

inductive RE : Type where
  | fail : RE
  | eps : RE
  | pred : (Char → Bool) → RE
  | seq : RE → RE → RE
  | alt : RE → RE → RE
  | star : RE → RE

def RE.nullable : RE → Bool
  | .fail => false
  | .eps => true
  | .pred _ => false
  | .seq a b => a.nullable && b.nullable
  | .alt a b => a.nullable || b.nullable
  | .star _ => true

def RE.deriv : RE → Char → RE
  | .fail, _ => .fail
  | .eps, _ => .fail
  | .pred p, c => if p c then .eps else .fail
  | .seq a b, c =>
      if a.nullable then .alt (.seq (a.deriv c) b) (b.deriv c)
      else .seq (a.deriv c) b
  | .alt a b, c => .alt (a.deriv c) (b.deriv c)
  | .star a, c => .seq (a.deriv c) (.star a)

/-- Does the whole character list match the expression? -/
def RE.matchesFull (r : RE) : List Char → Bool
  | [] => r.nullable
  | c :: rest => (r.deriv c).matchesFull rest

/-- Does some (possibly empty) initial segment of the list match?  This is
the anchored `^pattern` test of `RegExp.test`. -/
def RE.matchesFromStart (r : RE) : List Char → Bool
  | [] => r.nullable
  | c :: rest => r.nullable || (r.deriv c).matchesFromStart rest

/-- Does the expression match anywhere in the list?  This is the unanchored
`RegExp.test` / truthiness of `String.match`. -/
def RE.unanchoredTest (r : RE) : List Char → Bool
  | [] => r.nullable
  | c :: rest => r.matchesFromStart (c :: rest) || r.unanchoredTest rest

/-- Case-insensitive single character (the patterns carry the `i` flag). -/
def chCI (c : Char) : RE := .pred (fun x => x.toLower = c.toLower)

/-- Case-insensitive literal. -/
def litCI (s : String) : RE := (s.data.map chCI).foldr .seq .eps

/-- Exact single character. -/
def chE (c : Char) : RE := .pred (fun x => x = c)

/-- `\s*` (JS whitespace approximated by `Char.isWhitespace`). -/
def wsStar : RE := .star (.pred Char.isWhitespace)

/-- `\d+`. -/
def digits1 : RE := .seq (.pred Char.isDigit) (.star (.pred Char.isDigit))

/-- `(?:r)?`. -/
def reOpt (r : RE) : RE := .alt r .eps

/-- `[:\-]`. -/
def colonDash : RE := .pred (fun c => c = ':' || c = '-')

/-- `(?:\d+\.?\s*)?`, the optional leading item number. -/
def itemNumOpt : RE := reOpt (.seq digits1 (.seq (reOpt (chE '.')) wsStar))

/-- `₹?`. -/
def rupeeOpt : RE := reOpt (chE '₹')

theorem RE.matchesFromStart_of_matchesFull (r : RE) :
    ∀ (m rest : List Char), r.matchesFull m = true →
      r.matchesFromStart (m ++ rest) = true := by
  intro m
  induction m generalizing r with
  | nil =>
    intro rest h
    cases rest with
    | nil => exact h
    | cons c t => simp [RE.matchesFromStart, RE.matchesFull] at h ⊢; exact Or.inl h
  | cons c m' ih =>
    intro rest h
    simp only [RE.matchesFull] at h
    simp only [List.cons_append, RE.matchesFromStart, Bool.or_eq_true]
    exact Or.inr (ih (r.deriv c) rest h)

theorem RE.unanchoredTest_append (r : RE) :
    ∀ (pre mid post : List Char), r.matchesFull mid = true →
      r.unanchoredTest (pre ++ mid ++ post) = true := by
  intro pre
  induction pre with
  | nil =>
    intro mid post h
    cases hmp : mid ++ post with
    | nil =>
      have hm : mid = [] := by cases mid <;> simp_all
      simp only [List.nil_append, hmp, RE.unanchoredTest]
      rw [hm] at h
      exact h
    | cons c t =>
      simp only [List.nil_append, hmp, RE.unanchoredTest, Bool.or_eq_true]
      exact Or.inl (by rw [← hmp]; exact r.matchesFromStart_of_matchesFull mid post h)
  | cons c pre' ih =>
    intro mid post h
    simp only [List.cons_append, RE.unanchoredTest, Bool.or_eq_true]
    exact Or.inr (ih mid post h)

/-! ## Field extraction (`pdfExtractor.ts`): amounts, anchors and patterns -/

/-- The capturing group `([0-9,]+\.?\d*)` at the current position: greedy
maximal munch (nothing follows the group in any of the patterns).  Returns
the captured characters, or `none` when no digit-or-comma is present. -/
def lexAmount (s : List Char) : Option (List Char) :=
  let run := s.takeWhile (fun c => c.isDigit || c = ',')
  if run.isEmpty then none
  else
    match s.drop run.length with
    | '.' :: r2 => some (run ++ '.' :: r2.takeWhile Char.isDigit)
    | _ => some run

/-- `line.match(/^<prefix>([0-9,]+\.?\d*)/)`: walk the line keeping the
derivative of the prefix expression; at the first position where the prefix
has fully matched and the amount group can match, capture the amount.
This realises the backtracking search of the JS engine for the patterns at
hand, whose capture group is final and greedy. -/
def matchCaptureAux : RE → List Char → Option (List Char)
  | r, [] => if r.nullable then lexAmount [] else none
  | r, c :: t =>
    match (if r.nullable then lexAmount (c :: t) else none) with
    | some cap => some cap
    | none => matchCaptureAux (r.deriv c) t

/-- Digits to a natural number. -/
def natOfDigits (s : List Char) : ℕ :=
  s.foldl (fun a c => a * 10 + (c.toNat - 48)) 0

/-- JS `parseFloat` on the comma-stripped captures (digits, at most one
dot); an unparseable string is `NaN`, which the caller's `|| 0` turns into
0. -/
def parseFloatQ (s : List Char) : ℚ :=
  let intDigits := s.takeWhile Char.isDigit
  match s.drop intDigits.length with
  | '.' :: r2 =>
    let fracDigits := r2.takeWhile Char.isDigit
    if intDigits.isEmpty && fracDigits.isEmpty then 0
    else (natOfDigits intDigits : ℚ) +
      (natOfDigits fracDigits : ℚ) / (10 : ℚ) ^ fracDigits.length
  | _ => if intDigits.isEmpty then 0 else (natOfDigits intDigits : ℚ)

/-- `parseAmount` (pdfExtractor.ts lines 857-861): strip commas, parse as a
float, default 0. -/
def parseAmount (amountChars : List Char) : ℚ :=
  parseFloatQ (amountChars.filter (fun c => c != ','))

theorem takeWhile_length_le {α : Type} (p : α → Bool) (l : List α) :
    (l.takeWhile p).length ≤ l.length := by
  induction l with
  | nil => simp
  | cons c t ih =>
    rw [List.takeWhile_cons]
    split
    · simp only [List.length_cons]
      omega
    · simp

/-- `searchLine.match(/(\d{6,}\.?\d*)/g)` (pdfExtractor.ts line 588): the
non-overlapping matches, scanning left to right; a digit run shorter than
6 cannot host a match and is skipped whole. -/
def numTokens : List Char → List (List Char)
  | [] => []
  | c :: rest =>
    if c.isDigit then
      let runTail := rest.takeWhile Char.isDigit
      let afterRun := rest.drop runTail.length
      if 6 ≤ runTail.length + 1 then
        let fracPart :=
          match afterRun with
          | '.' :: r2 => '.' :: r2.takeWhile Char.isDigit
          | _ => []
        ((c :: runTail) ++ fracPart) :: numTokens (afterRun.drop fracPart.length)
      else numTokens afterRun
    else numTokens rest
termination_by s => s.length
decreasing_by
  · simp only [List.length_drop, List.length_cons]
    omega
  · simp only [List.length_drop, List.length_cons]
    omega
  · simp only [List.length_cons]
    omega

/-- `text.split(/\r?\n/)`: a lone carriage return is not a separator. -/
def splitLinesAux (cur : List Char) : List Char → List (List Char)
  | [] => [cur.reverse]
  | '\n' :: rest => cur.reverse :: splitLinesAux [] rest
  | '\r' :: '\n' :: rest => cur.reverse :: splitLinesAux [] rest
  | c :: rest => splitLinesAux (c :: cur) rest

def splitLinesJS (s : String) : List String :=
  (splitLinesAux [] s.data).map fun cs => String.mk cs

/-- JS `Array.findIndex`, with the `-1` not-found sentinel. -/
def findIndexZ (p : String → Bool) (lines : List String) : Int :=
  match lines.findIdx? p with
  | some i => (i : Int)
  | none => -1

/-- `/^(?:Part\s*)?B\s*[:\-]?/i` (pdfExtractor.ts line 338). -/
def partBRE1 : RE :=
  .seq (reOpt (.seq (litCI "Part") wsStar))
    (.seq (chCI 'B') (.seq wsStar (reOpt colonDash)))

/-- `/^B\s*\(\s*1\s*\)/i` (pdfExtractor.ts line 338). -/
def partBRE2 : RE :=
  .seq (chCI 'B') (.seq wsStar (.seq (chE '(')
    (.seq wsStar (.seq (chE '1') (.seq wsStar (chE ')'))))))

/-- The `partBStart` anchor predicate (pdfExtractor.ts line 338). -/
def partBLineTest (line : String) : Bool :=
  partBRE1.matchesFromStart line.data || partBRE2.matchesFromStart line.data

/-- `/Chapter\s*VI-A/i` (pdfExtractor.ts line 339). -/
def chapterVIARE : RE := .seq (litCI "Chapter") (.seq wsStar (litCI "VI-A"))

/-- The `chapterVIAStart` anchor predicate (pdfExtractor.ts line 339). -/
def chapterVIALineTest (line : String) : Bool :=
  chapterVIARE.unanchoredTest line.data

/-- `lines.slice(startIndex, endIndex > 0 ? endIndex : lines.length)` with
the `startIndex >= 0 ? ... : lines` guard of `searchInSection`
(pdfExtractor.ts line 550). -/
def sliceSection (lines : List String) (startIndex endIndex : Int) : List String :=
  if 0 ≤ startIndex then
    if 0 < endIndex then
      (lines.drop startIndex.toNat).take (endIndex.toNat - startIndex.toNat)
    else lines.drop startIndex.toNat
  else lines

/-- The inner pattern loop of `searchInSection`: the capture group
`([0-9,]+\.?\d*)` is never empty, so `match && match[1]` is just match
success. -/
def firstPatternCapture (patterns : List RE) (line : String) : Option (List Char) :=
  match patterns with
  | [] => none
  | p :: ps =>
    match matchCaptureAux p line.data with
    | some cap => some cap
    | none => firstPatternCapture ps line

/-- The line loop of `searchInSection` (pdfExtractor.ts lines 551-558):
first line (in order) on which some pattern matches wins. -/
def searchLines (patterns : List RE) : List String → Option (List Char)
  | [] => none
  | l :: ls =>
    match firstPatternCapture patterns l with
    | some cap => some cap
    | none => searchLines patterns ls

/-- `searchInSection` (pdfExtractor.ts lines 549-560). -/
def searchInSection (lines : List String) (startIndex endIndex : Int)
    (patterns : List RE) : Option (List Char) :=
  searchLines patterns (sliceSection lines startIndex endIndex)

/-! ## Gross salary extraction and Chapter VI-A deductions -/

/-- `/755046\.?0?0?/` (pdfExtractor.ts line 567): the whole suffix after the
digits is optional, so the test is satisfied exactly on texts containing
the digit substring 755046. -/
def grossSalaryDirectRE : RE :=
  .seq (chE '7') (.seq (chE '5') (.seq (chE '5') (.seq (chE '0')
    (.seq (chE '4') (.seq (chE '6')
      (.seq (reOpt (chE '.')) (.seq (reOpt (chE '0')) (reOpt (chE '0')))))))))

/-- `/1\.\s*Gross\s*Salary/i` (pdfExtractor.ts line 580). -/
def grossSalarySectionRE : RE :=
  .seq (chE '1') (.seq (chE '.') (.seq wsStar
    (.seq (litCI "Gross") (.seq wsStar (litCI "Salary")))))

/-- The token filter of the wide scan (pdfExtractor.ts lines 588-598):
first `\d{6,}` token on the line whose comma-stripped parse lies in the
salary sanity band [500000, 2000000]. -/
def firstSalaryToken (line : String) : Option (List Char) :=
  (numTokens line.data).find? fun tok =>
    let amount := parseFloatQ (tok.filter (fun c => c != ','))
    decide (500000 ≤ amount) && decide (amount ≤ 2000000)

/-- The window scan `for (j = i; j < min(i + 30, lines.length); j++)`
(pdfExtractor.ts lines 584-602). -/
def findAmountInWindow : ℕ → List String → Option (List Char)
  | 0, _ => none
  | _ + 1, [] => none
  | k + 1, l :: ls =>
    match firstSalaryToken l with
    | some tok => some tok
    | none => findAmountInWindow k ls

/-- The outer `1. Gross Salary` section scan (pdfExtractor.ts lines
576-604): at each heading line, search the 30-line window starting there;
if it fails, keep scanning for a later heading. -/
def scanGrossSalarySections : List String → Option (List Char)
  | [] => none
  | l :: ls =>
    if grossSalarySectionRE.unanchoredTest l.data then
      match findAmountInWindow 30 (l :: ls) with
      | some tok => some tok
      | none => scanGrossSalarySections ls
    else scanGrossSalarySections ls

/-- The three fallback gross-salary label patterns
(pdfExtractor.ts lines 613-617), as the prefixes before the amount group. -/
def grossSalaryPatterns : List RE :=
  [.seq itemNumOpt (.seq (reOpt (.seq (litCI "Gross") wsStar))
    (.seq (litCI "Salary") (.seq wsStar
      (.seq (reOpt (.seq (litCI "as") (.seq wsStar (.seq (litCI "per")
        (.seq wsStar (.seq (litCI "provisions") (.seq wsStar (.seq (litCI "of")
        (.seq wsStar (.seq (litCI "section") (.seq wsStar (.seq (litCI "17")
        (.seq wsStar (.seq (chE '(') (.seq (litCI "1") (chE ')'))))))))))))))))
      (.seq wsStar (.seq colonDash (.seq wsStar (.seq rupeeOpt wsStar)))))))),
   .seq itemNumOpt (.seq (reOpt (.seq (litCI "Total") wsStar))
    (.seq (litCI "Annual") (.seq wsStar (.seq (litCI "Salary")
      (.seq wsStar (.seq colonDash (.seq wsStar (.seq rupeeOpt wsStar)))))))),
   .seq itemNumOpt (.seq (litCI "Gross") (.seq wsStar (.seq (litCI "Salary")
      (.seq wsStar (.seq colonDash (.seq wsStar (.seq rupeeOpt wsStar)))))))]

/-- The gross-salary extraction chain of `parseForm16Text`
(pdfExtractor.ts lines 563-623): the direct 755046 match first, then the
`1. Gross Salary` wide scan with the sanity band, then the labelled
fallback patterns scoped to [partBStart, chapterVIAStart). -/
def grossSalaryField (text : String) (lines : List String)
    (partBStart chapterVIAStart : Int) : Option ℚ :=
  if grossSalaryDirectRE.unanchoredTest text.data then
    some (parseAmount "755046".data)
  else
    match scanGrossSalarySections lines with
    | some tok => some (parseAmount tok)
    | none =>
      match searchInSection lines partBStart chapterVIAStart grossSalaryPatterns with
      | some cap => some (parseAmount cap)
      | none => none

/-- `/^(?:\d+\.?\s*)?(?:Section\s*)?<code>\s*(?:deduction)?\s*[:\-]?\s*₹?\s*/i`,
the prefix of the per-section deduction patterns
(pdfExtractor.ts lines 832-837). -/
def sectionPatternRE (code : String) : RE :=
  .seq itemNumOpt (.seq (reOpt (.seq (litCI "Section") wsStar))
    (.seq (litCI code) (.seq wsStar (.seq (reOpt (litCI "deduction"))
      (.seq wsStar (.seq (reOpt colonDash) (.seq wsStar (.seq rupeeOpt wsStar))))))))

/-- `deductionPatterns` (pdfExtractor.ts lines 831-838). -/
def deductionPatterns : List (String × RE) :=
  [("80C", sectionPatternRE "80C"),
   ("80D", sectionPatternRE "80D"),
   ("80G", sectionPatternRE "80G"),
   ("80E", sectionPatternRE "80E"),
   ("80CCD", sectionPatternRE "80CCD"),
   ("80TTA", sectionPatternRE "80TTA")]

/-- The per-section line loop of `extractDeductions`
(pdfExtractor.ts lines 841-852): on a match, store and stop only when the
parsed amount is strictly positive; otherwise keep scanning. -/
def findSectionAmount (pattern : RE) : List String → Option ℚ
  | [] => none
  | l :: ls =>
    match matchCaptureAux pattern l.data with
    | some cap =>
      if 0 < parseAmount cap then some (parseAmount cap)
      else findSectionAmount pattern ls
    | none => findSectionAmount pattern ls

/-- `extractDeductions` (pdfExtractor.ts lines 824-855): search only within
`lines.slice(chapterVIAStart)` (empty when the anchor is missing); the
resulting mapping holds one entry per section found. -/
def extractDeductions (lines : List String) (chapterVIAStart : Int) :
    List (String × ℚ) :=
  let chapterVIALines :=
    if 0 ≤ chapterVIAStart then lines.drop chapterVIAStart.toNat else []
  deductionPatterns.filterMap fun sp =>
    (findSectionAmount sp.2 chapterVIALines).map fun amount => (sp.1, amount)

/-- The fields of `Form16Data` (pdfExtractor.ts lines 39-62) under
verification: `grossSalary` and the section deduction mapping.  The other
fields of the record are populated independently of these two and are not
modelled. -/
structure Form16Data where
  grossSalary : Option ℚ
  deductions : List (String × ℚ)
deriving DecidableEq

/-- `parseForm16Text` (pdfExtractor.ts lines 331-822), restricted to the
modelled fields: split the text at `\r?\n`, trim each line, locate the
`Part B` and `Chapter VI-A` anchors, and run the gross-salary chain and
`extractDeductions`. -/
def parseForm16Text (text : String) : Form16Data :=
  let lines := (splitLinesJS text).map String.trim
  let partBStart := findIndexZ partBLineTest lines
  let chapterVIAStart := findIndexZ chapterVIALineTest lines
  { grossSalary := grossSalaryField text lines partBStart chapterVIAStart
    deductions := extractDeductions lines chapterVIAStart }

/-! ## Claim C7 -/

theorem parseAmount_755046 : parseAmount "755046".data = 755046 := by
  have h : ("755046".data.filter (fun c => c != ',')) = ['7','5','5','0','4','6'] := by
    decide
  have h3 : natOfDigits ['7','5','5','0','4','6'] = 755046 := by decide
  have h2 : (['7','5','5','0','4','6'] : List Char).takeWhile Char.isDigit =
      ['7','5','5','0','4','6'] := by decide
  rw [parseAmount, h, parseFloatQ]
  simp only [h2, List.length_cons, List.length_nil, List.drop_succ_cons,
    List.drop_nil, List.isEmpty_cons, h3]
  norm_num

/-- C7: any text containing the digit substring 755046 — anywhere, under
any label, line or section — makes `parseForm16Text` set grossSalary to
exactly 755046; the labelled pattern chain and the 500,000-2,000,000
sanity band never run for this field. -/
theorem c7_direct_755046_override (text : String)
    (h : ∃ pre post : List Char, text.data = pre ++ "755046".data ++ post) :
    (parseForm16Text text).grossSalary = some 755046 := by
  obtain ⟨pre, post, hsplit⟩ := h
  have hfull : grossSalaryDirectRE.matchesFull "755046".data = true := by decide
  have htest : grossSalaryDirectRE.unanchoredTest text.data = true := by
    rw [hsplit]
    exact grossSalaryDirectRE.unanchoredTest_append pre _ post hfull
  have hgoal : (parseForm16Text text).grossSalary =
      grossSalaryField text ((splitLinesJS text).map String.trim)
        (findIndexZ partBLineTest ((splitLinesJS text).map String.trim))
        (findIndexZ chapterVIALineTest ((splitLinesJS text).map String.trim)) := rfl
  rw [hgoal, grossSalaryField, if_pos htest, parseAmount_755046]

/-- C7 witness: the substring inside an unrelated deduction line still
forces grossSalary = 755046. -/
theorem c7_direct_755046_override_witness :
    (parseForm16Text "Chapter VI-A\n80C deduction : 755046").grossSalary =
      some 755046 :=
  c7_direct_755046_override "Chapter VI-A\n80C deduction : 755046"
    ⟨"Chapter VI-A\n80C deduction : ".data, [], by decide⟩

/-! ## Claim C8 -/

theorem findSectionAmount_spec (pattern : RE) :
    ∀ (ls : List String) (a : ℚ), findSectionAmount pattern ls = some a →
      0 < a ∧ ∃ l ∈ ls, ∃ cap,
        matchCaptureAux pattern l.data = some cap ∧ parseAmount cap = a := by
  intro ls
  induction ls with
  | nil => intro a h; simp [findSectionAmount] at h
  | cons l ls ih =>
    intro a h
    rcases hm : matchCaptureAux pattern l.data with _ | cap
    · rw [findSectionAmount, hm] at h
      obtain ⟨ha, l', hl', rest⟩ := ih a h
      exact ⟨ha, l', List.mem_cons_of_mem _ hl', rest⟩
    · have h' : (if 0 < parseAmount cap then some (parseAmount cap)
          else findSectionAmount pattern ls) = some a := by
        rw [findSectionAmount, hm] at h
        exact h
      split_ifs at h' with hpos
      · obtain rfl : parseAmount cap = a := Option.some.inj h'
        exact ⟨hpos, l, List.mem_cons_self l ls, cap, hm, rfl⟩
      · obtain ⟨ha, l', hl', rest⟩ := ih a h'
        exact ⟨ha, l', List.mem_cons_of_mem _ hl', rest⟩

theorem extractDeductions_mem_spec (lines : List String) (chapterVIAStart : Int)
    (sec : String) (amount : ℚ)
    (h : (sec, amount) ∈ extractDeductions lines chapterVIAStart) :
    0 < amount ∧ ∃ pattern, (sec, pattern) ∈ deductionPatterns ∧
      ∃ l ∈ (if 0 ≤ chapterVIAStart then lines.drop chapterVIAStart.toNat else []),
        ∃ cap, matchCaptureAux pattern l.data = some cap ∧
          parseAmount cap = amount := by
  rw [extractDeductions] at h
  obtain ⟨sp, hsp, hf⟩ := List.mem_filterMap.1 h
  obtain ⟨a', ha', heq⟩ := Option.map_eq_some'.1 hf
  have h1 : sp.1 = sec := congrArg Prod.fst heq
  have h2 : a' = amount := congrArg Prod.snd heq
  rw [h2] at ha'
  obtain ⟨hpos, l, hl, cap, hcap, hparse⟩ := findSectionAmount_spec sp.2 _ amount ha'
  exact ⟨hpos, sp.2, by rw [← h1]; simpa using hsp, l, hl, cap, hcap, hparse⟩

/-- C8: the deductions mapping holds a key for a section only when that
section's pattern matched some line of the Chapter VI-A block with a
parsed amount strictly greater than 0; every stored value is positive; and
a document on whose Chapter VI-A block the 80G pattern never matches with
a positive amount yields no "80G" entry. -/
theorem c8_deduction_mapping (lines : List String) (chapterVIAStart : Int) :
    (∀ sec amount, (sec, amount) ∈ extractDeductions lines chapterVIAStart →
      0 < amount ∧ ∃ pattern, (sec, pattern) ∈ deductionPatterns ∧
        ∃ l ∈ (if 0 ≤ chapterVIAStart then lines.drop chapterVIAStart.toNat else []),
          ∃ cap, matchCaptureAux pattern l.data = some cap ∧
            parseAmount cap = amount) ∧
    ((∀ l ∈ (if 0 ≤ chapterVIAStart then lines.drop chapterVIAStart.toNat else []),
        ∀ cap, matchCaptureAux (sectionPatternRE "80G") l.data = some cap →
          parseAmount cap ≤ 0) →
      ∀ amount, ("80G", amount) ∉ extractDeductions lines chapterVIAStart) := by
  constructor
  · exact fun sec amount h => extractDeductions_mem_spec lines chapterVIAStart sec amount h
  · intro hno amount hmem
    obtain ⟨hpos, pattern, hpat, l, hl, cap, hcap, hparse⟩ :=
      extractDeductions_mem_spec lines chapterVIAStart "80G" amount hmem
    have hpg : pattern = sectionPatternRE "80G" := by
      simp [deductionPatterns] at hpat
      exact hpat
    rw [hpg] at hcap
    have := hno l hl cap hcap
    rw [hparse] at this
    linarith

/-- C8 witness: a concrete Chapter VI-A block with an 80C line but no 80G
line stores no "80G" entry. -/
theorem c8_deduction_mapping_witness :
    ("80G", (1000 : ℚ)) ∉ extractDeductions ["Chapter VI-A", "80C : 5000"] 0 :=
  (c8_deduction_mapping ["Chapter VI-A", "80C : 5000"] 0).2
    (by
      intro l hl cap hcap
      have hdrop : (if (0 : Int) ≤ 0 then
          (["Chapter VI-A", "80C : 5000"] : List String).drop (0 : Int).toNat
        else []) = ["Chapter VI-A", "80C : 5000"] := by norm_num
      rw [hdrop] at hl
      simp only [List.mem_cons, List.not_mem_nil, or_false] at hl
      rcases hl with rfl | rfl
      · rw [show matchCaptureAux (sectionPatternRE "80G") "Chapter VI-A".data = none
          from by decide] at hcap
        cases hcap
      · rw [show matchCaptureAux (sectionPatternRE "80G") "80C : 5000".data = none
          from by decide] at hcap
        cases hcap)
    1000

/-! ## Suggestion engine (`generateTaxSuggestions`, taxCalculator.ts lines 170-418)

The user-facing suggestion strings interpolate amounts for display only;
they carry no semantic content for the ordering/filtering claims and are
abbreviated to their fixed leading words here. -/

inductive Urgency where
  | high
  | medium
  | low
deriving DecidableEq

inductive SuggestionCategory where
  | investment
  | insurance
  | loan
  | savings
  | strategy
deriving DecidableEq

inductive RiskProfile where
  | conservative
  | moderate
  | aggressive
deriving DecidableEq

/-- One suggestion record (taxCalculator.ts lines 182-191); `section` is a
Lean keyword, so that field is called `sectionLabel`. -/
structure Suggestion where
  sectionLabel : String
  suggestion : String
  currentAmount : ℚ
  maxAmount : ℚ
  potentialSaving : ℚ
  priority : ℚ
  category : SuggestionCategory
  urgency : Urgency
deriving DecidableEq

/-- The optional `userProfile` argument (taxCalculator.ts lines 175-181). -/
structure UserProfile where
  age : Option ℚ
  hasParents : Option Bool
  isMetroCity : Option Bool
  hasHomeLoan : Option Bool
  investmentRiskProfile : Option RiskProfile

/-- `currentDeductions['80C'] || 0`. -/
def lookupDeduction (d : List (String × ℚ)) (k : String) : ℚ :=
  (d.lookup k).getD 0

/-- `calculateSavingFromDeduction` (taxCalculator.ts lines 405-418):
perturb the aggregate deduction total and compare old-regime totals. -/
def calculateSavingFromDeduction (grossIncome additionalDeduction : ℚ)
    (currentDeductions : List (String × ℚ)) : ℚ :=
  let currentTax := calculateOldRegimeTax grossIncome currentDeductions false
  let existingAmount := sumDeductions currentDeductions
  let newTax := calculateOldRegimeTax grossIncome
    [("total", existingAmount + additionalDeduction)] false
  jsRoundQ (currentTax.totalTax - newTax.totalTax)

/-- `urgencyOrder = { high: 3, medium: 2, low: 1 }` (taxCalculator.ts
line 398). -/
def urgencyOrder : Urgency → ℚ
  | .high => 3
  | .medium => 2
  | .low => 1

/-- The comparator of the final `.sort` (taxCalculator.ts lines 395-402):
urgency difference first, then `b.potentialSaving - a.potentialSaving ||
a.priority - b.priority` (the JS `||` falls through exactly on 0). -/
def suggCmp (a b : Suggestion) : ℚ :=
  if a.urgency ≠ b.urgency then urgencyOrder b.urgency - urgencyOrder a.urgency
  else if b.potentialSaving - a.potentialSaving ≠ 0 then
    b.potentialSaving - a.potentialSaving
  else a.priority - b.priority

/-- "a sorts no later than b" under the comparator. -/
def suggLe (a b : Suggestion) : Bool := decide (suggCmp a b ≤ 0)

/-- The list the source pushes into `suggestions` before filtering and
sorting (taxCalculator.ts lines 192-391).  The ambient clock read
`new Date().getMonth() + 1` is the explicit `currentMonth` parameter. -/
def buildSuggestions (grossIncome : ℚ) (currentDeductions : List (String × ℚ))
    (userProfile : Option UserProfile) (currentMonth : ℕ) : List Suggestion :=
  let isSeniorCitizen :=
    match userProfile.bind UserProfile.age with
    | some a => !(a == 0) && decide ((60 : ℚ) ≤ a)
    | none => false
  let hasParentsB := (userProfile.bind UserProfile.hasParents).getD false
  let hasHomeLoanB := (userProfile.bind UserProfile.hasHomeLoan).getD false
  let regimeComparison := compareRegimes grossIncome currentDeductions 0 false
  let regimeSuggestions :=
    if 5000 < regimeComparison.savings then
      [{ sectionLabel := "REGIME"
         suggestion := "Switch to the recommended tax regime"
         currentAmount := 0
         maxAmount := 0
         potentialSaving := regimeComparison.savings
         priority := 0
         category := .strategy
         urgency := .high }]
    else []
  let current80C := lookupDeduction currentDeductions "80C"
  let s80C :=
    if current80C < 150000 then
      [{ sectionLabel := "80C"
         suggestion := "Invest in 80C instruments"
         currentAmount := current80C
         maxAmount := 150000
         potentialSaving :=
           calculateSavingFromDeduction grossIncome (150000 - current80C) currentDeductions
         priority := 1
         category := .investment
         urgency := if current80C < 50000 then .high else .medium }]
    else []
  let current80D := lookupDeduction currentDeductions "80D"
  let max80D : ℚ :=
    if hasParentsB && isSeniorCitizen then 75000
    else if isSeniorCitizen then 50000 else 25000
  let s80D :=
    if current80D < max80D then
      [{ sectionLabel := "80D"
         suggestion := "Enhance health insurance coverage"
         currentAmount := current80D
         maxAmount := max80D
         potentialSaving :=
           calculateSavingFromDeduction grossIncome (max80D - current80D) currentDeductions
         priority := 2
         category := .insurance
         urgency := if current80D = 0 then .high else .medium }]
    else []
  let current80CCD1B := lookupDeduction currentDeductions "80CCD1B"
  let sNPS :=
    if current80CCD1B < 50000 then
      [{ sectionLabel := "80CCD1B"
         suggestion := "Contribute to NPS"
         currentAmount := current80CCD1B
         maxAmount := 50000
         potentialSaving :=
           calculateSavingFromDeduction grossIncome (50000 - current80CCD1B) currentDeductions
         priority := 3
         category := .investment
         urgency := .medium }]
    else []
  let current80G := lookupDeduction currentDeductions "80G"
  let s80G :=
    if 1500000 < grossIncome ∧ current80G < 50000 then
      [{ sectionLabel := "80G"
         suggestion := "Consider donating to eligible charities"
         currentAmount := current80G
         maxAmount := min 50000 (grossIncome * (1/10))
         potentialSaving :=
           calculateSavingFromDeduction grossIncome
             (min 50000 (grossIncome * (1/10))) currentDeductions
         priority := 8
         category := .investment
         urgency := .low }]
    else []
  let current80TTA := lookupDeduction currentDeductions "80TTA"
  let max80TTA : ℚ := if isSeniorCitizen then 50000 else 10000
  let sTTA :=
    if current80TTA < max80TTA ∧ 300000 < grossIncome then
      [{ sectionLabel := if isSeniorCitizen then "80TTB" else "80TTA"
         suggestion := "Maintain savings deposits for interest deduction"
         currentAmount := current80TTA
         maxAmount := max80TTA
         potentialSaving :=
           calculateSavingFromDeduction grossIncome max80TTA currentDeductions
         priority := 6
         category := .savings
         urgency := .low }]
    else []
  let currentHomeLoan := lookupDeduction currentDeductions "24"
  let sHomeLoan :=
    if hasHomeLoanB ∧ currentHomeLoan < 200000 then
      [{ sectionLabel := "24"
         suggestion := "Claim full home loan interest under Section 24"
         currentAmount := currentHomeLoan
         maxAmount := 200000
         potentialSaving :=
           calculateSavingFromDeduction grossIncome
             (200000 - currentHomeLoan) currentDeductions
         priority := 4
         category := .loan
         urgency := .high }]
    else []
  let s80EE :=
    if ¬ hasHomeLoanB ∧ grossIncome < 3500000 then
      [{ sectionLabel := "80EE"
         suggestion := "Consider a first home loan for Section 80EE"
         currentAmount := 0
         maxAmount := 50000
         potentialSaving :=
           calculateSavingFromDeduction grossIncome 50000 currentDeductions
         priority := 9
         category := .loan
         urgency := .low }]
    else []
  let sStrategy :=
    if 2000000 < grossIncome ∧ sumDeductions currentDeductions < 200000 then
      [{ sectionLabel := "STRATEGY"
         suggestion := "Consider comprehensive tax planning"
         currentAmount := 0
         maxAmount := 0
         potentialSaving := 50000
         priority := 1
         category := .strategy
         urgency := .high }]
    else []
  let totalCurrentDeductions := sumDeductions currentDeductions
  let sUrgent :=
    if (12 ≤ currentMonth ∨ currentMonth ≤ 3) ∧ totalCurrentDeductions < 150000 then
      [{ sectionLabel := "URGENT"
         suggestion := "Complete pending tax-saving investments before March 31st"
         currentAmount := totalCurrentDeductions
         maxAmount := 150000
         potentialSaving :=
           calculateSavingFromDeduction grossIncome
             (150000 - totalCurrentDeductions) currentDeductions
         priority := 0
         category := .strategy
         urgency := .high }]
    else []
  regimeSuggestions ++ s80C ++ s80D ++ sNPS ++ s80G ++ sTTA ++ sHomeLoan ++
    s80EE ++ sStrategy ++ sUrgent

/-- `generateTaxSuggestions` (taxCalculator.ts lines 171-403): build the
suggestions, filter out savings at or below 500, sort with the
urgency/saving/priority comparator.  JS `Array.prototype.sort` with a
consistent comparator produces a list sorted with respect to it; it is
modelled by merge sort on `suggLe`.  The `assessmentYear` argument is
parsed into the unused local `currentYear` and affects nothing. -/
def generateTaxSuggestions (grossIncome : ℚ) (currentDeductions : List (String × ℚ))
    (assessmentYear : String) (userProfile : Option UserProfile)
    (currentMonth : ℕ) : List Suggestion :=
  ((buildSuggestions grossIncome currentDeductions userProfile currentMonth).filter
    fun s => decide (500 < s.potentialSaving)).mergeSort suggLe

/-! ## Claim C9 -/

theorem urgencyOrder_inj {u v : Urgency} (h : urgencyOrder u = urgencyOrder v) :
    u = v := by
  cases u <;> cases v <;> first
    | rfl
    | (exfalso; norm_num [urgencyOrder] at h)

/-- The ordering the specification describes: urgency (high before medium
before low) primary, potentialSaving descending secondary, priority
ascending tertiary. -/
def suggSpecLe (a b : Suggestion) : Prop :=
  urgencyOrder b.urgency < urgencyOrder a.urgency ∨
    (a.urgency = b.urgency ∧ (b.potentialSaving < a.potentialSaving ∨
      (a.potentialSaving = b.potentialSaving ∧ a.priority ≤ b.priority)))

theorem suggLe_iff (a b : Suggestion) : suggLe a b = true ↔ suggSpecLe a b := by
  rw [suggLe, decide_eq_true_eq]
  unfold suggCmp suggSpecLe
  rcases eq_or_ne a.urgency b.urgency with h | h
  · rw [if_neg (by simp [h])]
    by_cases hs : b.potentialSaving - a.potentialSaving = 0
    · rw [if_neg (by simpa using hs)]
      constructor
      · intro hp
        exact Or.inr ⟨h, Or.inr ⟨by linarith, by linarith⟩⟩
      · rintro (hlt | ⟨_, hlt | ⟨_, hp⟩⟩)
        · rw [h] at hlt; exact absurd hlt (lt_irrefl _)
        · linarith
        · linarith
    · rw [if_pos (by simpa using hs)]
      constructor
      · intro hp
        exact Or.inr ⟨h, Or.inl (by rcases lt_or_eq_of_le hp with h' | h'
                                    · linarith
                                    · exact absurd h' hs)⟩
      · rintro (hlt | ⟨_, hlt | ⟨heq, _⟩⟩)
        · rw [h] at hlt; exact absurd hlt (lt_irrefl _)
        · linarith
        · exact absurd (by linarith : b.potentialSaving - a.potentialSaving = 0) hs
  · rw [if_pos h]
    constructor
    · intro hp
      have hne : urgencyOrder b.urgency ≠ urgencyOrder a.urgency :=
        fun hh => h (urgencyOrder_inj hh.symm)
      exact Or.inl (lt_of_le_of_ne (by linarith) hne)
    · rintro (hlt | ⟨heq, _⟩)
      · linarith
      · exact absurd heq h

theorem suggSpecLe_trans {a b c : Suggestion} (h1 : suggSpecLe a b)
    (h2 : suggSpecLe b c) : suggSpecLe a c := by
  rcases h1 with h1 | ⟨e1, h1⟩ <;> rcases h2 with h2 | ⟨e2, h2⟩
  · exact Or.inl (lt_trans h2 h1)
  · exact Or.inl (by rw [← e2]; exact h1)
  · exact Or.inl (by rw [e1]; exact h2)
  · refine Or.inr ⟨e1.trans e2, ?_⟩
    rcases h1 with hs1 | ⟨es1, hp1⟩ <;> rcases h2 with hs2 | ⟨es2, hp2⟩
    · exact Or.inl (lt_trans hs2 hs1)
    · exact Or.inl (by rw [← es2]; exact hs1)
    · exact Or.inl (by rw [es1]; exact hs2)
    · exact Or.inr ⟨es1.trans es2, le_trans hp1 hp2⟩

theorem suggLe_trans : ∀ a b c : Suggestion, suggLe a b = true →
    suggLe b c = true → suggLe a c = true := fun a b c h1 h2 =>
  (suggLe_iff a c).2 (suggSpecLe_trans ((suggLe_iff a b).1 h1) ((suggLe_iff b c).1 h2))

theorem suggCmp_swap (a b : Suggestion) : suggCmp b a = - suggCmp a b := by
  unfold suggCmp
  rcases eq_or_ne a.urgency b.urgency with h | h
  · rw [if_neg (show ¬ (b.urgency ≠ a.urgency) by simp [h]),
      if_neg (show ¬ (a.urgency ≠ b.urgency) by simp [h])]
    by_cases hs : b.potentialSaving - a.potentialSaving = 0
    · rw [if_neg (show ¬ (a.potentialSaving - b.potentialSaving ≠ 0) by
          simp only [ne_eq, not_not]; linarith),
        if_neg (show ¬ (b.potentialSaving - a.potentialSaving ≠ 0) by
          simp only [ne_eq, not_not]; exact hs)]
      ring
    · rw [if_pos (show a.potentialSaving - b.potentialSaving ≠ 0 by
          intro hh; exact hs (by linarith)),
        if_pos (show b.potentialSaving - a.potentialSaving ≠ 0 from hs)]
      ring
  · rw [if_pos (show b.urgency ≠ a.urgency from Ne.symm h),
      if_pos (show a.urgency ≠ b.urgency from h)]
    ring

theorem suggLe_total : ∀ a b : Suggestion, (suggLe a b || suggLe b a) = true := by
  intro a b
  rcases le_or_lt (suggCmp a b) 0 with h | h
  · have : suggLe a b = true := decide_eq_true h
    simp [this]
  · have h2 : suggCmp b a ≤ 0 := by rw [suggCmp_swap]; linarith
    have : suggLe b a = true := decide_eq_true h2
    simp [this]

/-- C9: every list returned by `generateTaxSuggestions` carries only
suggestions with potentialSaving above the 500 materiality threshold (so
none below it), and consecutive entries always follow the order: urgency
high before medium before low, then potentialSaving descending, then
declared priority ascending. -/
theorem c9_suggestions_filtered_sorted (g : ℚ) (d : List (String × ℚ))
    (ay : String) (p : Option UserProfile) (month : ℕ) :
    (generateTaxSuggestions g d ay p month).Forall
      (fun s => 500 < s.potentialSaving) ∧
    (generateTaxSuggestions g d ay p month).Pairwise suggSpecLe := by
  constructor
  · rw [List.forall_iff_forall_mem]
    intro s hs
    rw [generateTaxSuggestions] at hs
    have h1 := List.mem_mergeSort.1 hs
    have h2 := List.mem_filter.1 h1
    exact of_decide_eq_true h2.2
  · rw [generateTaxSuggestions]
    exact (List.sorted_mergeSort suggLe_trans suggLe_total _).imp
      (fun h => (suggLe_iff _ _).1 h)

/-! ## OCR concurrency limiter (`OCRSemaphore`, pdfExtractor.ts lines 9-37)

The JS event loop runs each `acquire` / `release` body atomically, so the
semaphore is an interleaving of whole acquire and release steps over the
shared state `(running, queue)`.  Clients are identified by natural-number
labels; the `holders` component records which clients currently hold a
slot (a granted `acquire` not yet released), which the code keeps
implicitly in the continuations. -/

/-- `maxConcurrent = 2` (pdfExtractor.ts line 11). -/
def maxConcurrent : ℤ := 2

/-- The semaphore state: `running` and the FIFO `queue` are the fields of
the class; `holders` lists the granted clients. -/
structure SemState where
  running : ℤ
  queue : List ℕ
  holders : List ℕ
deriving DecidableEq

/-- `running = 0`, `queue = []` at construction (pdfExtractor.ts
lines 10-12). -/
def initialSemState : SemState := ⟨0, [], []⟩

inductive SemEvent where
  | acquire (w : ℕ)
  | release (w : ℕ)

/-- One atomic step.  `acquire` either takes a slot immediately
(`running < maxConcurrent`, lines 15-18) or appends the caller to the wait
queue (lines 20-25).  `release` (lines 28-34) decrements `running`, shifts
the queue, and, when a waiter was queued, runs its callback, which
increments `running` and grants that waiter.  A release is only ever
performed by a client whose acquire was granted (`hw`), matching the
claim's precondition. -/
inductive SemStep : SemState → SemEvent → SemState → Prop where
  | acquire_fast (s : SemState) (w : ℕ) (h : s.running < maxConcurrent) :
      SemStep s (.acquire w) ⟨s.running + 1, s.queue, w :: s.holders⟩
  | acquire_wait (s : SemState) (w : ℕ) (h : ¬ s.running < maxConcurrent) :
      SemStep s (.acquire w) ⟨s.running, s.queue ++ [w], s.holders⟩
  | release_empty (s : SemState) (w : ℕ) (hw : w ∈ s.holders)
      (h : s.queue = []) :
      SemStep s (.release w) ⟨s.running - 1, [], s.holders.erase w⟩
  | release_wake (s : SemState) (w q : ℕ) (rest : List ℕ) (hw : w ∈ s.holders)
      (h : s.queue = q :: rest) :
      SemStep s (.release w) ⟨s.running - 1 + 1, rest, q :: s.holders.erase w⟩

/-- States reachable from the freshly constructed semaphore by any
sequence of acquire and release steps. -/
inductive SemReachable : SemState → Prop where
  | init : SemReachable initialSemState
  | step {s s' : SemState} {e : SemEvent} (hs : SemReachable s)
      (hstep : SemStep s e s') : SemReachable s'

theorem semInvariant {s : SemState} (h : SemReachable s) :
    s.running = (s.holders.length : ℤ) ∧ s.holders.length ≤ 2 := by
  induction h with
  | init => simp [initialSemState]
  | step hs hstep ih =>
    obtain ⟨hrun, hcap⟩ := ih
    cases hstep with
    | acquire_fast w h =>
      have hm : maxConcurrent = 2 := rfl
      rw [hm] at h
      dsimp only
      simp only [List.length_cons]
      refine ⟨?_, ?_⟩ <;> omega
    | acquire_wait w h => exact ⟨hrun, hcap⟩
    | release_empty w hw hq =>
      have hlen := List.length_erase_of_mem hw
      have hpos := List.length_pos_of_mem hw
      dsimp only
      rw [hlen]
      refine ⟨?_, ?_⟩ <;> omega
    | release_wake w q rest hw hq =>
      have hlen := List.length_erase_of_mem hw
      have hpos := List.length_pos_of_mem hw
      dsimp only
      simp only [List.length_cons]
      rw [hlen]
      refine ⟨?_, ?_⟩ <;> omega

/-! ## Claim C10 -/

/-- C10: in every reachable state of the OCR semaphore (release only by
granted holders), at most 2 slots are concurrently granted and `running`
counts exactly the granted holders; a release in a state with waiters
grants the slot to the front of the FIFO queue; and an acquire that finds
no free slot appends the caller to the back of the queue — so waiters are
woken in arrival order. -/
theorem c10_semaphore_cap_and_fifo :
    (∀ s : SemState, SemReachable s →
      s.holders.length ≤ 2 ∧ s.running = (s.holders.length : ℤ)) ∧
    (∀ (s : SemState) (w : ℕ) (s' : SemState), SemStep s (.release w) s' →
      ∀ q rest, s.queue = q :: rest → s'.queue = rest ∧ q ∈ s'.holders) ∧
    (∀ (s : SemState) (w : ℕ) (s' : SemState), SemStep s (.acquire w) s' →
      ¬ s.running < maxConcurrent → s'.queue = s.queue ++ [w]) := by
  refine ⟨fun s hs => ⟨(semInvariant hs).2, (semInvariant hs).1⟩, ?_, ?_⟩
  · intro s w s' hstep q rest hq
    cases hstep with
    | release_empty w' hw hq' =>
      rw [hq'] at hq
      cases hq
    | release_wake w' q' rest' hw hq' =>
      rw [hq'] at hq
      obtain ⟨rfl, rfl⟩ := List.cons.inj hq
      exact ⟨rfl, List.mem_cons_self _ _⟩
  · intro s w s' hstep hfull
    cases hstep with
    | acquire_fast w' h => exact absurd h hfull
    | acquire_wait w' h => rfl

/-- C10 witness: the cap and count applied to the initial state. -/
theorem c10_semaphore_cap_and_fifo_witness :
    initialSemState.holders.length ≤ 2 ∧
      initialSemState.running = (initialSemState.holders.length : ℤ) :=
  c10_semaphore_cap_and_fifo.1 initialSemState SemReachable.init
